import Mathlib

/-!
Shallow embedding of the aranet-rs core (src/lib.rs): binary record decoders
for the Aranet4 BLE sensor, the typed device-read wrapper, and the per-event
decoding step of the discovery pipeline.

Modelling conventions:
  - Rust `u8` is `Byte := Fin 256`; wider machine integers are `Nat`
    (values stay below 2^16 by construction of `u16_from_le`).
  - Rust `f32` values are modelled as exact rationals `ℚ`; the scale factors
    0.05, 0.1, 1/100, 1.8, 1/1013.25 are all exact decimal literals, so every
    claim settled here is independent of float rounding.
  - A Rust computation that can `panic!` (or `expect`) is embedded as
    `PResult α`, with `.panic msg` marking the aborting branch.
  - The async transport is a pure record: `is_connected : Bool` and
    `read : Characteristic → Except BtleError (List Byte)`; transport errors
    propagate through `Except` exactly as `?` does in the source.
-/

namespace Aranet

/-- Rust `u8`. -/
abbrev Byte := Fin 256

/-- Outcome of a Rust computation that may `panic!` / `expect`. -/
inductive PResult (α : Type) where
  | ok : α → PResult α
  | panic : String → PResult α
deriving Repr, DecidableEq

def PResult.map {α β : Type} (f : α → β) : PResult α → PResult β
  | .ok a => .ok (f a)
  | .panic m => .panic m

/-- `u16::from_le_bytes([b0, b1])`. -/
def u16_from_le (b0 b1 : Byte) : Nat := b0.val + 256 * b1.val

/-- `pub fn temperature_c_to_f(c: f32) -> f32 { c * 1.8 + 32.0 }` -/
def temperature_c_to_f (c : ℚ) : ℚ := c * 1.8 + 32.0

/-- `pub fn pressure_hpa_to_atm(hpa: f32) -> f32 { hpa/1013.25 }` -/
def pressure_hpa_to_atm (hpa : ℚ) : ℚ := hpa / 1013.25

namespace uuids

/-- Manufacturer id for LE advertisement (SAF Tehnika, Aranet's parent). -/
def MANUFACTURER_ID : Nat := 0x0702

def AR4_SERVICE : String := "0000fce0-0000-1000-8000-00805f9b34fb"

def AR4_READ_CURRENT_READINGS : String := "f0cd1503-95da-4f4b-9ac8-aa55d312af0c"

def AR4_READ_CURRENT_READINGS_DET : String := "f0cd3001-95da-4f4b-9ac8-aa55d312af0c"

def AR4_READ_INTERVAL : String := "f0cd2002-95da-4f4b-9ac8-aa55d312af0c"

def AR4_READ_SECONDS_SINCE_UPDATE : String := "f0cd2004-95da-4f4b-9ac8-aa55d312af0c"

def AR4_READ_TOTAL_READINGS : String := "f0cd2001-95da-4f4b-9ac8-aa55d312af0c"

end uuids

/-- `btleplug::api::Characteristic`, reduced to the identifying UUID pair
(the `CharPropFlags` properties play no role in any read path modelled). -/
structure Characteristic where
  uuid : String
  service_uuid : String
deriving Repr, DecidableEq

namespace characteristics

def AR4_READ_CURRENT_READINGS : Characteristic :=
  { uuid := uuids.AR4_READ_CURRENT_READINGS, service_uuid := uuids.AR4_SERVICE }

def AR4_READ_CURRENT_READINGS_DET : Characteristic :=
  { uuid := uuids.AR4_READ_CURRENT_READINGS_DET, service_uuid := uuids.AR4_SERVICE }

def AR4_READ_INTERVAL : Characteristic :=
  { uuid := uuids.AR4_READ_INTERVAL, service_uuid := uuids.AR4_SERVICE }

def AR4_READ_SECONDS_SINCE_UPDATE : Characteristic :=
  { uuid := uuids.AR4_READ_SECONDS_SINCE_UPDATE, service_uuid := uuids.AR4_SERVICE }

def AR4_READ_TOTAL_READINGS : Characteristic :=
  { uuid := uuids.AR4_READ_TOTAL_READINGS, service_uuid := uuids.AR4_SERVICE }

end characteristics

/-- `struct Version { major: u8, minor: u8, patch: u8 }` -/
structure Version where
  major : Byte
  minor : Byte
  patch : Byte
deriving Repr, DecidableEq

def Version.new (major minor patch : Byte) : Version :=
  { major := major, minor := minor, patch := patch }

/-- `enum CalibrationState` -/
inductive CalibrationState where
  | NotActive
  | EndRequest
  | InProgress
  | Error
deriving Repr, DecidableEq

/-- `CalibrationState::from_raw` -/
def CalibrationState.from_raw (b : Nat) : Option CalibrationState :=
  match b with
  | 0 => some CalibrationState.NotActive
  | 1 => some CalibrationState.EndRequest
  | 2 => some CalibrationState.InProgress
  | 3 => some CalibrationState.Error
  | _ => none

/-- `enum DisplayStatus { Green = 1, Yellow = 2, Red = 3 }` -/
inductive DisplayStatus where
  | Green
  | Yellow
  | Red
deriving Repr, DecidableEq

/-- `struct CurrentReading` -/
structure CurrentReading where
  co2_ppm : Option Nat
  temperature_c : Option ℚ
  pressure_hpa : Option ℚ
  humidity : ℚ
  battery : ℚ
  status : DisplayStatus
deriving Repr, DecidableEq

/-- `CurrentReading::parse(data: [u8; 9])`. The source `panic!`s on an
unexpected display-status byte; that branch is `PResult.panic`. -/
def CurrentReading.parse (data : Fin 9 → Byte) : PResult CurrentReading :=
  let co2 := Option.filter (fun r => r >>> 15 != 1)
    (some (u16_from_le (data 0) (data 1)))
  let temperature := Option.map (fun (r : Nat) => (r : ℚ) * 0.05)
    (Option.filter (fun r => ((r >>> 14) &&& 1) != 1)
      (some (u16_from_le (data 2) (data 3))))
  let pressure := Option.map (fun (r : Nat) => (r : ℚ) * 0.1)
    (Option.filter (fun r => r >>> 15 != 1)
      (some (u16_from_le (data 4) (data 5))))
  let humidity : ℚ := ((data 6).val : ℚ) / 100.0
  let battery : ℚ := ((data 7).val : ℚ) / 100.0
  match (data 8).val with
  | 1 => .ok { co2_ppm := co2, temperature_c := temperature, pressure_hpa := pressure,
               humidity := humidity, battery := battery, status := DisplayStatus.Green }
  | 2 => .ok { co2_ppm := co2, temperature_c := temperature, pressure_hpa := pressure,
               humidity := humidity, battery := battery, status := DisplayStatus.Yellow }
  | 3 => .ok { co2_ppm := co2, temperature_c := temperature, pressure_hpa := pressure,
               humidity := humidity, battery := battery, status := DisplayStatus.Red }
  | o => .panic ("unexpected display status value: " ++ toString o)

/-- `CurrentReading::temperature_f` -/
def CurrentReading.temperature_f (r : CurrentReading) : Option ℚ :=
  Option.map (fun c => c * 1.8 + 32.0) r.temperature_c

/-- `struct CurrentReadingDetailed` -/
structure CurrentReadingDetailed where
  co2_ppm : Option Nat
  temperature_c : Option ℚ
  pressure_hpa : Option ℚ
  humidity : ℚ
  battery : ℚ
  status : DisplayStatus
  interval : Nat
  age : Nat
deriving Repr, DecidableEq

/-- `data[..9].try_into().unwrap()` on a `[u8; 13]`: the 9-byte prefix. -/
def first9 (data : Fin 13 → Byte) : Fin 9 → Byte :=
  fun i => data (Fin.castLE (by omega) i)

/-- `CurrentReadingDetailed::parse(data: [u8; 13])` -/
def CurrentReadingDetailed.parse (data : Fin 13 → Byte) : PResult CurrentReadingDetailed :=
  match CurrentReading.parse (first9 data) with
  | .panic m => .panic m
  | .ok cr =>
    let interval := u16_from_le (data 9) (data 10)
    let age := u16_from_le (data 11) (data 12)
    .ok { co2_ppm := cr.co2_ppm, temperature_c := cr.temperature_c,
          pressure_hpa := cr.pressure_hpa, humidity := cr.humidity,
          battery := cr.battery, status := cr.status,
          interval := interval, age := age }

/-- `CurrentReadingDetailed::temperature_f` -/
def CurrentReadingDetailed.temperature_f (r : CurrentReadingDetailed) : Option ℚ :=
  Option.map temperature_c_to_f r.temperature_c

/-- `CurrentReadingDetailed::pressure_atm` -/
def CurrentReadingDetailed.pressure_atm (r : CurrentReadingDetailed) : Option ℚ :=
  Option.map pressure_hpa_to_atm r.pressure_hpa

/-- `struct ManufacturerData` -/
structure ManufacturerData where
  disconnected : Bool
  calibration_state : CalibrationState
  dfu_active : Bool
  integrations : Bool
  version : Version
deriving Repr, DecidableEq

/-- `ManufacturerData::parse(data: [u8; 7])`. The `.expect` on
`CalibrationState::from_raw` is the `PResult.panic` branch. -/
def ManufacturerData.parse (data : Fin 7 → Byte) : PResult ManufacturerData :=
  let disconnected := (data 0).val &&& (1 <<< 0) != 0
  match CalibrationState.from_raw (((data 0).val >>> 2) &&& 0x03) with
  | none => .panic ("unexpected value for calibration state")
  | some calibration_state =>
    let dfu_active := (data 0).val &&& (1 <<< 4) != 0
    let integrations := (data 0).val &&& (1 <<< 5) != 0
    let version := Version.new (data 3) (data 2) (data 1)
    .ok { disconnected := disconnected, calibration_state := calibration_state,
          dfu_active := dfu_active, integrations := integrations, version := version }

/-- `btleplug::Error`, reduced to the variants the modelled paths produce. -/
inductive BtleError where
  | NotConnected
  | NotSupported : String → BtleError
  | Other : String → BtleError
deriving Repr, DecidableEq

/-- The peripheral transport capability consumed by `Aranet4<P>`: connection
state and characteristic reads (a transport failure is `Except.error`). -/
structure Peripheral where
  is_connected : Bool
  read : Characteristic → Except BtleError (List Byte)

/-- `struct Aranet4<P> { device: P }` -/
structure Aranet4 where
  device : Peripheral

/-- `Vec<u8>::try_into() -> Result<[u8; n], _>`: succeeds exactly when the
list has length `n`. -/
def tryIntoArr (l : List Byte) (n : Nat) : Option (Fin n → Byte) :=
  if h : l.length = n then some (fun i => l.get (Fin.cast h.symm i)) else none

/-- `Aranet4::current_readings` -/
def Aranet4.current_readings (a : Aranet4) : PResult (Except BtleError CurrentReading) :=
  if !a.device.is_connected then .ok (.error BtleError.NotConnected) else
  match a.device.read characteristics.AR4_READ_CURRENT_READINGS with
  | .error e => .ok (.error e)
  | .ok raw =>
    match tryIntoArr raw 9 with
    | none => .panic ("expected current readings to be a 9 byte array")
    | some arr => (CurrentReading.parse arr).map Except.ok

/-- `Aranet4::current_readings_details` -/
def Aranet4.current_readings_details (a : Aranet4) :
    PResult (Except BtleError CurrentReadingDetailed) :=
  if !a.device.is_connected then .ok (.error BtleError.NotConnected) else
  match a.device.read characteristics.AR4_READ_CURRENT_READINGS_DET with
  | .error e => .ok (.error e)
  | .ok raw =>
    match tryIntoArr raw 13 with
    | none => .panic ("expected current readings (detailed) to be a 13 byte array")
    | some arr => (CurrentReadingDetailed.parse arr).map Except.ok

/-- `Aranet4::interval` -/
def Aranet4.interval (a : Aranet4) : PResult (Except BtleError Nat) :=
  if !a.device.is_connected then .ok (.error BtleError.NotConnected) else
  match a.device.read characteristics.AR4_READ_INTERVAL with
  | .error e => .ok (.error e)
  | .ok raw =>
    match tryIntoArr raw 2 with
    | none => .panic ("expected interval to be a 2-byte little endian integer")
    | some arr => .ok (.ok (u16_from_le (arr 0) (arr 1)))

/-- `Aranet4::last_update_age` -/
def Aranet4.last_update_age (a : Aranet4) : PResult (Except BtleError Nat) :=
  if !a.device.is_connected then .ok (.error BtleError.NotConnected) else
  match a.device.read characteristics.AR4_READ_SECONDS_SINCE_UPDATE with
  | .error e => .ok (.error e)
  | .ok raw =>
    match tryIntoArr raw 2 with
    | none => .panic ("expected last update age to be a 2-byte little endian integer")
    | some arr => .ok (.ok (u16_from_le (arr 0) (arr 1)))

/-- `Aranet4::total_readings`. NOTE: the source reads
`ch::AR4_READ_SECONDS_SINCE_UPDATE` here (src/lib.rs line 371), not
`ch::AR4_READ_TOTAL_READINGS`; the embedding reproduces that. -/
def Aranet4.total_readings (a : Aranet4) : PResult (Except BtleError Nat) :=
  if !a.device.is_connected then .ok (.error BtleError.NotConnected) else
  match a.device.read characteristics.AR4_READ_SECONDS_SINCE_UPDATE with
  | .error e => .ok (.error e)
  | .ok raw =>
    match tryIntoArr raw 2 with
    | none => .panic ("expected total readings to be a 2-byte little endian integer")
    | some arr => .ok (.ok (u16_from_le (arr 0) (arr 1)))

/-- The `btleplug::api::CentralEvent` variants the discovery pipeline
distinguishes: manufacturer-data advertisements (peripheral id plus a map
from manufacturer id to raw bytes, as an association list) versus all other
event kinds, which the pipeline drops. -/
inductive CentralEvent where
  | ManufacturerDataAdvertisement : Nat → List (Nat × List Byte) → CentralEvent
  | OtherEvent : CentralEvent

/-- `HashMap::get` on the association-list model of `manufacturer_data`. -/
def mapGet (m : List (Nat × List Byte)) (k : Nat) : Option (List Byte) :=
  Option.map Prod.snd (m.find? (fun p => p.1 == k))

/-- `struct DiscoveredAranet` (the `adapter: Adapter` handle is an opaque
transport reference and is omitted; `peripheral_id` is an abstract id). -/
structure DiscoveredAranet where
  peripheral_id : Nat
  manufacturer_data : ManufacturerData
  current_reading : Option CurrentReadingDetailed
deriving Repr, DecidableEq

/-- Rust slice indexing `&l[a..b]`: panics when the range end is out of
bounds for the slice, otherwise yields the `b - a` bytes starting at `a`. -/
def rustSlice (l : List Byte) (a b : Nat) : PResult (List Byte) :=
  if a ≤ b ∧ b ≤ l.length then .ok ((l.take b).drop a)
  else .panic ("slice index out of range")

/-- The per-event body of the `filter_map` in `discover_aranet4`
(src/lib.rs lines 400-426): `.ok none` is the stream dropping the event,
`.ok (some d)` is the stream emitting `d`, `.panic` is a panic inside the
closure. Mirrors the source exactly: `data[..7]` then
`try_into().expect(..)` for the manufacturer prefix, then `data[8..21]`
with `try_into().map(CurrentReadingDetailed::parse).ok()`. -/
def discovery_filter_map (ce : CentralEvent) : PResult (Option DiscoveredAranet) :=
  match ce with
  | CentralEvent.OtherEvent => .ok none
  | CentralEvent.ManufacturerDataAdvertisement id mdata =>
    match mapGet mdata uuids.MANUFACTURER_ID with
    | none => .ok none
    | some data =>
      match rustSlice data 0 7 with
      | .panic m => .panic m
      | .ok pre =>
        match tryIntoArr pre 7 with
        | none =>
          .panic ("Aranet4 Manufacturer ID used for advertisement data under 7 bytes!")
        | some raw_manuf =>
          match ManufacturerData.parse raw_manuf with
          | .panic m => .panic m
          | .ok md =>
            match rustSlice data 8 21 with
            | .panic m => .panic m
            | .ok mid =>
              match tryIntoArr mid 13 with
              | none =>
                .ok (some { peripheral_id := id, manufacturer_data := md,
                            current_reading := none })
              | some arr13 =>
                match CurrentReadingDetailed.parse arr13 with
                | .panic m => .panic m
                | .ok r =>
                  .ok (some { peripheral_id := id, manufacturer_data := md,
                              current_reading := some r })

/-! ## Helper lemmas -/

lemma u16_lt (b0 b1 : Byte) : u16_from_le b0 b1 < 65536 := by
  have h0 := b0.isLt
  have h1 := b1.isLt
  unfold u16_from_le
  omega

lemma testBit15_iff (u : Nat) (hu : u < 65536) :
    Nat.testBit u 15 = true ↔ u >>> 15 = 1 := by
  have h2 : u >>> 15 < 2 := by
    rw [Nat.shiftRight_eq_div_pow]
    omega
  rw [Nat.testBit]
  have h3 : u >>> 15 = 0 ∨ u >>> 15 = 1 := by omega
  rcases h3 with h3 | h3 <;> rw [h3] <;> decide

lemma and_shift_testBit (x i : Nat) : (x &&& (1 <<< i) != 0) = x.testBit i := by
  rw [Nat.one_shiftLeft, Nat.and_two_pow]
  cases h : x.testBit i <;> simp [h]

/-- Every successful `CurrentReading::parse` produces exactly the field
values computed from the bytes (all fields except the status byte). -/
lemma parse_ok_fields (data : Fin 9 → Byte) (r : CurrentReading)
    (h : CurrentReading.parse data = PResult.ok r) :
    r.co2_ppm = Option.filter (fun v => v >>> 15 != 1)
      (some (u16_from_le (data 0) (data 1))) ∧
    r.temperature_c = Option.map (fun (v : Nat) => (v : ℚ) * 0.05)
      (Option.filter (fun v => ((v >>> 14) &&& 1) != 1)
        (some (u16_from_le (data 2) (data 3)))) ∧
    r.pressure_hpa = Option.map (fun (v : Nat) => (v : ℚ) * 0.1)
      (Option.filter (fun v => v >>> 15 != 1)
        (some (u16_from_le (data 4) (data 5)))) ∧
    r.humidity = ((data 6).val : ℚ) / 100.0 ∧
    r.battery = ((data 7).val : ℚ) / 100.0 := by
  simp only [CurrentReading.parse] at h
  split at h <;> cases h <;> exact ⟨rfl, rfl, rfl, rfl, rfl⟩

/-! ## Concrete inputs used by the claim theorems -/

/-- A manufacturer-data advertisement whose payload for manufacturer id
0x0702 is exactly the 7 manufacturer-status bytes, with no embedded
detailed-reading bytes appended (payload length 7 < 21). -/
def shortAdvertEvent : CentralEvent :=
  CentralEvent.ManufacturerDataAdvertisement 7
    [(uuids.MANUFACTURER_ID, [0x00, 0x01, 0x02, 0x03, 0x00, 0x00, 0x00])]

/-- A 9-byte reading whose status byte (byte 8) is 0, outside 1..3. -/
def badStatusInput : Fin 9 → Byte := ![0, 0, 0, 0, 0, 0, 0, 0, 0]

/-- A transport whose total-readings characteristic (f0cd2001) holds the
little-endian value 2 while the seconds-since-update characteristic
(f0cd2004) holds 1; every other read fails. -/
def twoCounterDevice : Peripheral :=
  { is_connected := true
    read := fun c =>
      if c = characteristics.AR4_READ_TOTAL_READINGS then Except.ok [2, 0]
      else if c = characteristics.AR4_READ_SECONDS_SINCE_UPDATE then Except.ok [1, 0]
      else Except.error (BtleError.Other ("unexpected characteristic")) }

/-- A connected transport that answers the current-readings characteristic
with 8 bytes (one short of 9) and the detailed-readings characteristic with
12 bytes (one short of 13). -/
def shortPayloadDevice : Peripheral :=
  { is_connected := true
    read := fun c =>
      if c = characteristics.AR4_READ_CURRENT_READINGS then
        Except.ok [0, 0, 0, 0, 0, 0, 0, 1]
      else if c = characteristics.AR4_READ_CURRENT_READINGS_DET then
        Except.ok [0, 0, 0, 0, 0, 0, 0, 0, 1, 0, 0, 0]
      else Except.error (BtleError.Other ("unexpected characteristic")) }

/-! ## Claim theorems -/

/-- Claim C1 (code bug): for a manufacturer-data advertisement with the
target id 0x0702 whose payload is only 7 bytes long (so the embedded
detailed-reading bytes [8:21) are absent), the discovery pipeline's
per-event body panics in the slice expression `data[8..21]` instead of
emitting a `DiscoveredAranet` with `current_reading = none`. -/
theorem discovery_short_payload_panics :
    discovery_filter_map shortAdvertEvent = PResult.panic ("slice index out of range") := rfl

/-- Claim C2 (code bug): decoding a 9-byte reading whose byte 8 is 0 (not
one of 1, 2, 3) panics in `CurrentReading::parse` instead of returning a
`MalformedInput` decode error to the caller. -/
theorem parse_invalid_status_panics :
    CurrentReading.parse badStatusInput =
      PResult.panic ("unexpected display status value: 0") := rfl

/-- Claim C3 (code bug): `Aranet4::total_readings` issues its read against
the seconds-since-update characteristic f0cd2004 — the same characteristic
`last_update_age` reads — not the total-readings characteristic f0cd2001:
on a device whose f0cd2001 value is 2 and whose f0cd2004 value is 1, both
operations return 1, although the two characteristics are distinct. -/
theorem total_readings_reads_seconds_characteristic :
    Aranet4.total_readings { device := twoCounterDevice } = PResult.ok (Except.ok 1) ∧
    Aranet4.last_update_age { device := twoCounterDevice } = PResult.ok (Except.ok 1) ∧
    characteristics.AR4_READ_TOTAL_READINGS ≠ characteristics.AR4_READ_SECONDS_SINCE_UPDATE := by
  refine ⟨rfl, rfl, by decide⟩

/-- Claim C5 (code bug): on a connected device, a current-readings payload
of 8 bytes and a detailed payload of 12 bytes each make the read operation
panic in `try_into().expect(..)` instead of returning a `MalformedInput`
error to the caller. -/
theorem wrong_length_payload_panics :
    Aranet4.current_readings { device := shortPayloadDevice } =
      PResult.panic ("expected current readings to be a 9 byte array") ∧
    Aranet4.current_readings_details { device := shortPayloadDevice } =
      PResult.panic ("expected current readings (detailed) to be a 13 byte array") := by
  refine ⟨rfl, rfl⟩

/-- A 9-byte reading with humidity byte 255 and battery byte 255
(status byte 1, all sensor words zero). -/
def fullByteInput : Fin 9 → Byte := ![0, 0, 0, 0, 0, 0, 255, 255, 1]

/-- Claim C4 counterexample: on the 9-byte input whose byte 6 is 255 the
decode succeeds and yields humidity 255/100 = 2.55, which is not in [0,1]. -/
theorem humidity_above_one_counterexample :
    (CurrentReading.parse fullByteInput).map CurrentReading.humidity =
      PResult.ok ((255 : ℚ) / 100.0) ∧
    ¬ ((255 : ℚ) / 100.0 ≤ 1) := by
  refine ⟨rfl, by norm_num⟩

/-- Claim C4 (amended): every successful 9-byte decode has
humidity = byte6/100 and battery = byte7/100; each value lies in
[0, 255/100], and lies in [0,1] exactly when its source byte is at
most 100. -/
theorem humidity_battery_formula (data : Fin 9 → Byte) (r : CurrentReading)
    (h : CurrentReading.parse data = PResult.ok r) :
    r.humidity = ((data 6).val : ℚ) / 100.0 ∧
    r.battery = ((data 7).val : ℚ) / 100.0 ∧
    0 ≤ r.humidity ∧ r.humidity ≤ 255 / 100 ∧
    0 ≤ r.battery ∧ r.battery ≤ 255 / 100 ∧
    (r.humidity ≤ 1 ↔ (data 6).val ≤ 100) ∧
    (r.battery ≤ 1 ↔ (data 7).val ≤ 100) := by
  obtain ⟨-, -, -, hh, hb⟩ := parse_ok_fields data r h
  have h6 : ((data 6).val : ℚ) ≤ 255 := by
    have := (data 6).isLt
    exact_mod_cast Nat.le_of_lt_succ this
  have h7 : ((data 7).val : ℚ) ≤ 255 := by
    have := (data 7).isLt
    exact_mod_cast Nat.le_of_lt_succ this
  have h6n : (0 : ℚ) ≤ ((data 6).val : ℚ) := Nat.cast_nonneg _
  have h7n : (0 : ℚ) ≤ ((data 7).val : ℚ) := Nat.cast_nonneg _
  refine ⟨hh, hb, ?_, ?_, ?_, ?_, ?_, ?_⟩
  · rw [hh]; positivity
  · rw [hh]; rw [show (100.0 : ℚ) = 100 by norm_num]; linarith
  · rw [hb]; positivity
  · rw [hb]; rw [show (100.0 : ℚ) = 100 by norm_num]; linarith
  · rw [hh]
    rw [show (100.0 : ℚ) = 100 by norm_num]
    rw [div_le_one (by norm_num : (0:ℚ) < 100)]
    exact_mod_cast Iff.rfl
  · rw [hb]
    rw [show (100.0 : ℚ) = 100 by norm_num]
    rw [div_le_one (by norm_num : (0:ℚ) < 100)]
    exact_mod_cast Iff.rfl

/-- A 9-byte reading with humidity byte 45, battery byte 80, status 1. -/
def humidityInput : Fin 9 → Byte := ![0, 0, 0, 0, 0, 0, 45, 80, 1]

/-- The record `CurrentReading::parse` produces on `humidityInput`,
with every field written as the byte computation that produces it. -/
def humidityOutput : CurrentReading :=
  { co2_ppm := some 0, temperature_c := some ((0 : ℚ) * 0.05),
    pressure_hpa := some ((0 : ℚ) * 0.1),
    humidity := (45 : ℚ) / 100.0, battery := (80 : ℚ) / 100.0,
    status := DisplayStatus.Green }

/-- Witness for the amended claim C4, at the concrete input with humidity
byte 45 and battery byte 80. -/
theorem humidity_battery_formula_witness :
    humidityOutput.humidity = ((humidityInput 6).val : ℚ) / 100.0 ∧
    humidityOutput.battery = ((humidityInput 7).val : ℚ) / 100.0 ∧
    0 ≤ humidityOutput.humidity ∧ humidityOutput.humidity ≤ 255 / 100 ∧
    0 ≤ humidityOutput.battery ∧ humidityOutput.battery ≤ 255 / 100 ∧
    (humidityOutput.humidity ≤ 1 ↔ (humidityInput 6).val ≤ 100) ∧
    (humidityOutput.battery ≤ 1 ↔ (humidityInput 7).val ≤ 100) :=
  humidity_battery_formula humidityInput humidityOutput rfl

/-- Claim C6: in every successful 9-byte decode, if bit 15 of the
little-endian u16 of bytes 0..1 is set the co2 field is `none`, and
otherwise it is `some` of that u16 value. -/
theorem co2_sentinel_bit15 (data : Fin 9 → Byte) (r : CurrentReading)
    (h : CurrentReading.parse data = PResult.ok r) :
    (Nat.testBit (u16_from_le (data 0) (data 1)) 15 = true → r.co2_ppm = none) ∧
    (Nat.testBit (u16_from_le (data 0) (data 1)) 15 = false →
      r.co2_ppm = some (u16_from_le (data 0) (data 1))) := by
  obtain ⟨hco2, -, -, -, -⟩ := parse_ok_fields data r h
  constructor
  · intro hb
    have h1 : u16_from_le (data 0) (data 1) >>> 15 = 1 :=
      (testBit15_iff _ (u16_lt _ _)).mp hb
    rw [hco2]
    simp [Option.filter, h1]
  · intro hb
    have h1 : u16_from_le (data 0) (data 1) >>> 15 ≠ 1 := by
      intro hx
      rw [(testBit15_iff _ (u16_lt _ _)).mpr hx] at hb
      cases hb
    rw [hco2]
    simp [Option.filter, h1]

/-- A 9-byte reading whose co2 word is 0x8320 (bit 15 set), status 1. -/
def sentinelCo2Input : Fin 9 → Byte := ![0x20, 0x83, 0, 0, 0, 0, 0, 0, 1]

/-- The record `CurrentReading::parse` produces on `sentinelCo2Input`. -/
def sentinelCo2Output : CurrentReading :=
  { co2_ppm := none, temperature_c := some ((0 : ℚ) * 0.05),
    pressure_hpa := some ((0 : ℚ) * 0.1),
    humidity := (0 : ℚ) / 100.0, battery := (0 : ℚ) / 100.0,
    status := DisplayStatus.Green }

/-- Witness for claim C6: on the concrete input whose co2 word has bit 15
set, the decode succeeds and its co2 field is absent. -/
theorem co2_sentinel_bit15_witness :
    CurrentReading.parse sentinelCo2Input = PResult.ok sentinelCo2Output ∧
    sentinelCo2Output.co2_ppm = none :=
  ⟨rfl, (co2_sentinel_bit15 sentinelCo2Input sentinelCo2Output rfl).1 (by decide)⟩

/-- The spec's concrete manufacturer-data bytes. -/
def manufInput : Fin 7 → Byte := ![0x00, 0x01, 0x02, 0x03, 0x00, 0x00, 0x00]

/-- The record the spec expects for `manufInput`: v3.2.1, all flags off. -/
def manufOutput : ManufacturerData :=
  { disconnected := false, calibration_state := CalibrationState.NotActive,
    dfu_active := false, integrations := false, version := Version.new 3 2 1 }

/-- Claim C7: every successful manufacturer-data decode takes the
disconnected flag from byte 0 bit 0, the calibration state from byte 0
bits 2-3, the DFU flag from bit 4, the integrations flag from bit 5, and
the version from bytes 1, 2, 3 as patch, minor, major; in particular the
bytes 00 01 02 03 00 00 00 decode to v3.2.1 with all flags off and
calibration NotActive. -/
theorem manufacturer_data_field_decode :
    (∀ (data : Fin 7 → Byte) (md : ManufacturerData),
      ManufacturerData.parse data = PResult.ok md →
        md.disconnected = (data 0).val.testBit 0 ∧
        CalibrationState.from_raw (((data 0).val >>> 2) &&& 0x03) =
          some md.calibration_state ∧
        md.dfu_active = (data 0).val.testBit 4 ∧
        md.integrations = (data 0).val.testBit 5 ∧
        md.version = Version.new (data 3) (data 2) (data 1)) ∧
    ManufacturerData.parse manufInput = PResult.ok manufOutput := by
  constructor
  · intro data md h
    simp only [ManufacturerData.parse] at h
    split at h
    · cases h
    · next cs heq =>
      cases h
      exact ⟨and_shift_testBit _ 0, heq, and_shift_testBit _ 4, and_shift_testBit _ 5, rfl⟩
  · rfl

/-- Witness for claim C7, instantiating the universal part at the spec's
concrete manufacturer bytes. -/
theorem manufacturer_data_field_decode_witness :
    manufOutput.disconnected = (manufInput 0).val.testBit 0 ∧
    CalibrationState.from_raw (((manufInput 0).val >>> 2) &&& 0x03) =
      some manufOutput.calibration_state ∧
    manufOutput.dfu_active = (manufInput 0).val.testBit 4 ∧
    manufOutput.integrations = (manufInput 0).val.testBit 5 ∧
    manufOutput.version = Version.new (manufInput 3) (manufInput 2) (manufInput 1) :=
  manufacturer_data_field_decode.1 manufInput manufOutput rfl

/-- Claim C8: every successful 13-byte detailed decode agrees with the
9-byte basic decode of its first 9 bytes on every shared field, and its
interval and age are the little-endian u16 of bytes [9:11) and [11:13). -/
theorem detailed_parse_refines_basic (data : Fin 13 → Byte)
    (rd : CurrentReadingDetailed)
    (h : CurrentReadingDetailed.parse data = PResult.ok rd) :
    CurrentReading.parse (first9 data) =
      PResult.ok { co2_ppm := rd.co2_ppm, temperature_c := rd.temperature_c,
                   pressure_hpa := rd.pressure_hpa, humidity := rd.humidity,
                   battery := rd.battery, status := rd.status } ∧
    rd.interval = u16_from_le (data 9) (data 10) ∧
    rd.age = u16_from_le (data 11) (data 12) := by
  simp only [CurrentReadingDetailed.parse] at h
  split at h
  · cases h
  · next cr heq =>
    cases h
    exact ⟨heq, rfl, rfl⟩

/-- A 13-byte detailed reading: the spec's concrete 9-byte scenario
(co2 = 800, temperature raw 400, pressure raw 10130, humidity 45,
battery 80, status 1) followed by interval 60 and age 30. -/
def detailedInput : Fin 13 → Byte :=
  ![0x20, 0x03, 0x90, 0x01, 0x92, 0x27, 45, 80, 1, 60, 0, 30, 0]

/-- The record `CurrentReadingDetailed::parse` produces on `detailedInput`,
fields written as the byte computations that produce them. -/
def detailedOutput : CurrentReadingDetailed :=
  { co2_ppm := some 800, temperature_c := some ((400 : ℚ) * 0.05),
    pressure_hpa := some ((10130 : ℚ) * 0.1),
    humidity := (45 : ℚ) / 100.0, battery := (80 : ℚ) / 100.0,
    status := DisplayStatus.Green, interval := 60, age := 30 }

/-- Witness for claim C8 at the concrete 13-byte input. -/
theorem detailed_parse_refines_basic_witness :
    CurrentReading.parse (first9 detailedInput) =
      PResult.ok { co2_ppm := detailedOutput.co2_ppm,
                   temperature_c := detailedOutput.temperature_c,
                   pressure_hpa := detailedOutput.pressure_hpa,
                   humidity := detailedOutput.humidity,
                   battery := detailedOutput.battery,
                   status := detailedOutput.status } ∧
    detailedOutput.interval = u16_from_le (detailedInput 9) (detailedInput 10) ∧
    detailedOutput.age = u16_from_le (detailedInput 11) (detailedInput 12) :=
  detailed_parse_refines_basic detailedInput detailedOutput rfl

/-- Claim C9: the Fahrenheit view of a detailed reading is absent exactly
when the Celsius value is absent and otherwise is c * 1.8 + 32; the
atmosphere view is absent exactly when the hPa value is absent and
otherwise is hpa / 1013.25. -/
theorem unit_conversions_preserve_absence (r : CurrentReadingDetailed) :
    (r.temperature_f).isNone = (r.temperature_c).isNone ∧
    r.temperature_f = Option.map (fun c => c * 1.8 + 32.0) r.temperature_c ∧
    (r.pressure_atm).isNone = (r.pressure_hpa).isNone ∧
    r.pressure_atm = Option.map (fun hpa => hpa / 1013.25) r.pressure_hpa := by
  cases hc : r.temperature_c <;> cases hp : r.pressure_hpa <;>
    simp [CurrentReadingDetailed.temperature_f, CurrentReadingDetailed.pressure_atm,
      temperature_c_to_f, pressure_hpa_to_atm, hc, hp]

/-- Claim C10: the calibration-state bits are masked down to 2 bits, a
value that is always at most 3, so `ManufacturerData::parse` never takes
its error branch: every 7-byte input yields a record. -/
theorem manufacturer_parse_total (data : Fin 7 → Byte) :
    (((data 0).val >>> 2) &&& 0x03) ≤ 3 ∧
    ∃ md, ManufacturerData.parse data = PResult.ok md := by
  constructor
  · exact Nat.and_le_right
  · have hv : (((data 0).val >>> 2) &&& 0x03) = 0 ∨
        (((data 0).val >>> 2) &&& 0x03) = 1 ∨
        (((data 0).val >>> 2) &&& 0x03) = 2 ∨
        (((data 0).val >>> 2) &&& 0x03) = 3 := by
      have h3 : (((data 0).val >>> 2) &&& 0x03) ≤ 3 := Nat.and_le_right
      omega
    simp only [ManufacturerData.parse]
    rcases hv with h | h | h | h <;> rw [h] <;> exact ⟨_, rfl⟩

end Aranet
